import Mathlib

/-!
Verification of the Esita chat-widget send lifecycle
(`src/frontend/src/Chatbot.jsx`).

The file holds two near-identical React component variants:
* variant 1 (lines 1-288): plain `fetch` with no timeout, outcome handling
  that never consults `r.ok`;
* variant 2 (lines 289-665): `fetchWithTimeout` (AbortController + timer),
  health probe, and outcome handling that branches on `r.ok`.

We shallowly embed the pure helpers (`normalize`, `isNameQuestion`,
`isCreatorQuestion`, `historyForServer`) and the `send` functions of both
variants.  React state (`online`, `input`, `sending`, `messages`) becomes an
explicit `ChatState`; the network is an oracle argument describing how the
transport behaves; each `send` returns the new state together with the list
of observable effects it performed (message appends, input clear, sending-
flag writes, fetch calls, connectivity writes), in program order.
-/

namespace Esita

/-- JavaScript `String.prototype.toLowerCase`, restricted to the per-character
lowering relevant here (the source only matches ASCII substrings). -/
def jsToLowerCase (s : String) : String :=
  ⟨s.data.map Char.toLower⟩

/-- Characters stripped by JavaScript `String.prototype.trim` (the WhiteSpace
and LineTerminator productions; the exotic Unicode members are omitted as the
claims never exercise them). -/
def jsWhitespace (c : Char) : Bool :=
  c == ' ' || c == '\t' || c == '\n' || c == '\r' || c == '\x0b' || c == '\x0c'

/-- JavaScript `String.prototype.trim`: drop whitespace from both ends. -/
def jsTrim (s : String) : String :=
  ⟨((s.data.dropWhile jsWhitespace).reverse.dropWhile jsWhitespace).reverse⟩

/-- Whether the first character list begins the second. -/
def listStarts : List Char → List Char → Bool
  | [], _ => true
  | _ :: _, [] => false
  | a :: as, b :: bs => a == b && listStarts as bs

/-- Whether the first character list occurs contiguously in the second. -/
def occursIn (pat : List Char) : List Char → Bool
  | [] => listStarts pat []
  | c :: cs => listStarts pat (c :: cs) || occursIn pat cs

/-- JavaScript `String.prototype.includes`: contiguous-substring test. -/
def jsIncludes (s pat : String) : Bool :=
  occursIn pat.data s.data

/-- `normalize` (Chatbot.jsx lines 299-301): lower-case then trim. -/
def normalize (s : String) : String :=
  jsTrim (jsToLowerCase s)

/-- `isNameQuestion` (Chatbot.jsx lines 303-312): the Identity-intent
classifier. -/
def isNameQuestion (msg : String) : Bool :=
  let m := normalize msg
  jsIncludes m "your name" ||
  jsIncludes m "ur name" ||
  m == "name" ||
  jsIncludes m "what is your name" ||
  jsIncludes m "who are you"

/-- `isCreatorQuestion` (Chatbot.jsx lines 314-322): the Creator-intent
classifier. -/
def isCreatorQuestion (msg : String) : Bool :=
  let m := normalize msg
  jsIncludes m "who created you" ||
  jsIncludes m "who made you" ||
  jsIncludes m "your creator" ||
  jsIncludes m "who built you"

/-- One conversation turn: `{ role, text }`. -/
structure Message where
  role : String
  text : String
deriving DecidableEq, Repr

/-- `historyForServer` (Chatbot.jsx lines 440-445): `messages.slice(-10)`
with the role collapsed to literally `"assistant"` or `"user"`.
`List.drop (length - 10)` is exactly `slice(-10)`: the whole list when it has
at most 10 entries, otherwise the last 10. -/
def historyForServer (messages : List Message) : List Message :=
  (messages.drop (messages.length - 10)).map fun m =>
    { role := if m.role == "assistant" then "assistant" else "user"
      text := m.text }

/-- The React state of the component: `online`, `input`, `sending`,
`messages` (Chatbot.jsx lines 412-418). -/
structure ChatState where
  online : Bool
  input : String
  sending : Bool
  messages : List Message
deriving DecidableEq, Repr

/-- A parsed JSON response body, restricted to the object shape of the wire
contract: an optional `reply` field and an optional `error` field (`none`
models an absent field).  Non-object JSON bodies are outside the model. -/
structure RespBody where
  reply : Option String
  error : Option String
deriving DecidableEq, Repr

/-- JavaScript truthiness of an optional string field: `undefined` (absent)
and the empty string are falsy. -/
def optTruthy : Option String → Bool
  | none => false
  | some s => s != ""

/-- The outgoing POST body `{ message, history }` (Chatbot.jsx line 479). -/
structure RequestBody where
  message : String
  history : List Message
deriving DecidableEq, Repr

/-- Observable effects of one `send` invocation, in program order: message
appends, clearing the input, writes to the `sending` flag, fetch calls,
writes to the `online` flag. -/
inductive Ev where
  | appendMsg (m : Message)
  | clearInput
  | setSending (b : Bool)
  | fetchCall (body : RequestBody)
  | setOnline (b : Bool)
deriving DecidableEq, Repr

/-- How the transport behaves for one bounded request, relative to the
timeout timer: the response settles in time (`body = none` when the body
fails to parse as JSON), the request rejects in time with an exception of
the given name, or nothing has settled when the timer fires. -/
inductive Transport where
  | settles (ok : Bool) (status : Nat) (body : Option RespBody)
  | fails (name : String)
  | hangs
deriving DecidableEq, Repr

/-- What `await fetchWithTimeout ...` followed by the body parse delivers to
the caller: a response, or a thrown exception carrying a name. -/
inductive FetchOutcome where
  | response (ok : Bool) (status : Nat) (body : Option RespBody)
  | thrown (name : String)
deriving DecidableEq, Repr

/-- `fetchWithTimeout` (Chatbot.jsx lines 400-409): a timer of `ms`
milliseconds is raced against the fetch; when it fires first it calls
`controller.abort()`, which makes the pending fetch reject with an
exception named `AbortError`; otherwise the underlying settlement is
passed through.  The timer itself is cleared in `finally` on every path. -/
def fetchWithTimeout : Transport → FetchOutcome
  | .settles ok status body => .response ok status body
  | .fails name => .thrown name
  | .hangs => .thrown "AbortError"

/-- Seed assistant greeting (Chatbot.jsx lines 416-418). -/
def greetingText : String := "Hi, I\x27m Esita. How can I help you today?"

/-- The component state right after mount, before the health probe. -/
def initialState : ChatState :=
  { online := true, input := "", sending := false,
    messages := [{ role := "assistant", text := greetingText }] }

/-- Fixed creator reply of variant 2 (Chatbot.jsx line 459; the trailing
characters are the mojibake codepoints present verbatim in the source). -/
def creatorText2 : String := "Sweetyseleena created me. ðŸ‘‘"

/-- Fixed identity reply of variant 2 (Chatbot.jsx line 467). -/
def identityText2 : String := "I\x27m Esita ðŸ¤–"

/-- Prefix marking server-error text in variant 2 (Chatbot.jsx line 495). -/
def errPrefix2 : String := "âŒ "

/-- Timeout message of variant 2 (Chatbot.jsx line 514). -/
def timeoutText2 : String := "Request timed out (Render sleeping or slow). Try again."

/-- Generic connection-error message (Chatbot.jsx lines 192 and 515). -/
def connErrorText : String := "Connection error. Please try again."

/-- Display text for a non-ok response in variant 2 (Chatbot.jsx line 492):
`data?.reply || data?.error || HTTP status`, under JavaScript truthiness. -/
def serverErrorText (data : Option RespBody) (status : Nat) : String :=
  if optTruthy (data.bind RespBody.reply) then (data.bind RespBody.reply).getD ""
  else if optTruthy (data.bind RespBody.error) then (data.bind RespBody.error).getD ""
  else "HTTP " ++ toString status

/-- `send` of variant 2 (Chatbot.jsx lines 447-521).  The fetch body uses
`historyForServer st.messages`: the `useMemo` value captured by the closure
of the render that invoked `send`, derived from the message list before the
user turn is committed (functional `setMessages` updates never mutate the
bindings of the running closure). -/
def send2 (st : ChatState) (tr : Transport) : ChatState × List Ev :=
  let text := jsTrim st.input
  if text == "" || st.sending then (st, [])
  else
    let userMsg : Message := { role := "user", text := text }
    let st1 : ChatState := { st with messages := st.messages ++ [userMsg], input := "" }
    let ev1 : List Ev := [Ev.appendMsg userMsg, Ev.clearInput]
    if isCreatorQuestion text then
      let m : Message := { role := "assistant", text := creatorText2 }
      ({ st1 with messages := st1.messages ++ [m] }, ev1 ++ [Ev.appendMsg m])
    else if isNameQuestion text then
      let m : Message := { role := "assistant", text := identityText2 }
      ({ st1 with messages := st1.messages ++ [m] }, ev1 ++ [Ev.appendMsg m])
    else
      let st2 : ChatState := { st1 with sending := true }
      let req : RequestBody := { message := text, history := historyForServer st.messages }
      let ev2 : List Ev := ev1 ++ [Ev.setSending true, Ev.fetchCall req]
      match fetchWithTimeout tr with
      | .response ok status data =>
        if !ok then
          let m : Message := { role := "assistant", text := errPrefix2 ++ serverErrorText data status }
          ({ st2 with messages := st2.messages ++ [m], online := false, sending := false },
           ev2 ++ [Ev.appendMsg m, Ev.setOnline false, Ev.setSending false])
        else if optTruthy (data.bind RespBody.reply) then
          let m : Message := { role := "assistant", text := (data.bind RespBody.reply).getD "" }
          ({ st2 with messages := st2.messages ++ [m], online := true, sending := false },
           ev2 ++ [Ev.appendMsg m, Ev.setOnline true, Ev.setSending false])
        else
          let m : Message := { role := "assistant", text := "No reply." }
          ({ st2 with messages := st2.messages ++ [m], online := true, sending := false },
           ev2 ++ [Ev.appendMsg m, Ev.setOnline true, Ev.setSending false])
      | .thrown name =>
        let mtext := if name == "AbortError" then timeoutText2 else connErrorText
        let m : Message := { role := "assistant", text := mtext }
        ({ st2 with online := false, messages := st2.messages ++ [m], sending := false },
         ev2 ++ [Ev.setOnline false, Ev.appendMsg m, Ev.setSending false])

/-- The assistant-role messages appended during a list of effects. -/
def assistantAppends (evs : List Ev) : List Message :=
  evs.filterMap fun e =>
    match e with
    | .appendMsg m => if m.role == "assistant" then some m else none
    | _ => none

/-- The fetch calls issued during a list of effects. -/
def fetchCalls (evs : List Ev) : List RequestBody :=
  evs.filterMap fun e =>
    match e with
    | .fetchCall b => some b
    | _ => none

/-- The writes to the `sending` flag during a list of effects. -/
def sendingWrites (evs : List Ev) : List Bool :=
  evs.filterMap fun e =>
    match e with
    | .setSending b => some b
    | _ => none

/-- A 25-turn conversation used to exercise the history window. -/
def exampleConvo : List Message :=
  (List.range 25).map fun i =>
    { role := if i % 2 = 0 then "assistant" else "bot", text := toString i }

/-- C8: with input empty after trimming, or while a send is in flight,
`send` is a silent no-op: the state (conversation, input buffer,
connectivity, sending flag) is unchanged and no effect at all is performed,
in particular no network request. -/
theorem c8_noop_guard (st : ChatState) (tr : Transport)
    (h : jsTrim st.input = "" ∨ st.sending = true) :
    send2 st tr = (st, []) := by
  unfold send2
  rcases h with h | h <;> simp [h]

/-- Witness for C8 at a whitespace-only input and, separately, the guard is
exercised by a state already sending. -/
theorem c8_witness :
    send2 { initialState with input := "   " } Transport.hangs =
      ({ initialState with input := "   " }, []) :=
  c8_noop_guard { initialState with input := "   " } Transport.hangs (Or.inl (by decide))

/-- C3: the outgoing history view never exceeds 10 entries, every entry
carries role literally `"assistant"` or `"user"`, and the view is exactly
the last-10 window with any role other than `"assistant"` collapsed to
`"user"` and texts kept. -/
theorem c3_history_window (messages : List Message) :
    (historyForServer messages).length ≤ 10 ∧
    (∀ m ∈ historyForServer messages, m.role = "assistant" ∨ m.role = "user") ∧
    historyForServer messages =
      (messages.drop (messages.length - 10)).map fun m =>
        { role := if m.role = "assistant" then "assistant" else "user", text := m.text } := by
  refine ⟨?_, ?_, ?_⟩
  · unfold historyForServer
    rw [List.length_map, List.length_drop]
    omega
  · intro m hm
    unfold historyForServer at hm
    simp only [List.mem_map] at hm
    obtain ⟨x, _, rfl⟩ := hm
    by_cases h : x.role == "assistant" <;> simp [h]
  · unfold historyForServer
    congr 1
    funext m
    by_cases h : m.role = "assistant" <;> simp [h]

/-- Witness for C3 at a concrete 25-turn conversation, with the membership
hypothesis discharged at a concrete window entry. -/
theorem c3_witness :
    (historyForServer exampleConvo).length ≤ 10 ∧
    ((Message.mk "user" "15").role = "assistant" ∨ (Message.mk "user" "15").role = "user") :=
  ⟨(c3_history_window exampleConvo).1,
   (c3_history_window exampleConvo).2.1 (Message.mk "user" "15") (by decide)⟩

/-- C1: a trimmed input matching the Creator intent appends exactly one
assistant Message carrying the fixed creator text, performs no fetch, and
the sending flag is never written (the state stays Idle); a trimmed input
matching the Identity intent but not the Creator intent likewise appends
exactly one assistant Message carrying the fixed identity text with no
fetch and no sending transition. -/
theorem c1_canned_replies_no_network (st : ChatState) (tr : Transport)
    (hidle : st.sending = false) (hne : jsTrim st.input ≠ "") :
    (isCreatorQuestion (jsTrim st.input) = true →
      assistantAppends (send2 st tr).2 = [{ role := "assistant", text := creatorText2 }] ∧
      fetchCalls (send2 st tr).2 = [] ∧
      sendingWrites (send2 st tr).2 = [] ∧
      (send2 st tr).1.sending = false) ∧
    (isCreatorQuestion (jsTrim st.input) = false →
      isNameQuestion (jsTrim st.input) = true →
      assistantAppends (send2 st tr).2 = [{ role := "assistant", text := identityText2 }] ∧
      fetchCalls (send2 st tr).2 = [] ∧
      sendingWrites (send2 st tr).2 = [] ∧
      (send2 st tr).1.sending = false) := by
  constructor
  · intro hcr
    simp [send2, hcr, hidle, hne, assistantAppends, fetchCalls, sendingWrites]
  · intro hcr hnm
    simp [send2, hcr, hnm, hidle, hne, assistantAppends, fetchCalls, sendingWrites]

/-- Witness for C1: the creator branch at input `"who made you?"` and the
identity branch at input `"your name"`, against an arbitrary transport. -/
theorem c1_witness :
    (assistantAppends (send2 { initialState with input := "who made you?" } Transport.hangs).2 =
        [{ role := "assistant", text := creatorText2 }] ∧
      fetchCalls (send2 { initialState with input := "who made you?" } Transport.hangs).2 = [] ∧
      sendingWrites (send2 { initialState with input := "who made you?" } Transport.hangs).2 = [] ∧
      (send2 { initialState with input := "who made you?" } Transport.hangs).1.sending = false) ∧
    (assistantAppends (send2 { initialState with input := "your name" } Transport.hangs).2 =
        [{ role := "assistant", text := identityText2 }] ∧
      fetchCalls (send2 { initialState with input := "your name" } Transport.hangs).2 = [] ∧
      sendingWrites (send2 { initialState with input := "your name" } Transport.hangs).2 = [] ∧
      (send2 { initialState with input := "your name" } Transport.hangs).1.sending = false) :=
  ⟨(c1_canned_replies_no_network { initialState with input := "who made you?" }
      Transport.hangs (by decide) (by decide)).1 (by decide),
   (c1_canned_replies_no_network { initialState with input := "your name" }
      Transport.hangs (by decide) (by decide)).2 (by decide) (by decide)⟩

/-- C5: for a non-canned send, every transport behavior (response with any
status and body, network failure, timer firing first) writes the sending
flag exactly twice — `true` then `false` — so the state returns to Idle
exactly once and never remains Sending. -/
theorem c5_sending_cleanup (st : ChatState) (tr : Transport)
    (hidle : st.sending = false) (hne : jsTrim st.input ≠ "")
    (hcr : isCreatorQuestion (jsTrim st.input) = false)
    (hnm : isNameQuestion (jsTrim st.input) = false) :
    sendingWrites (send2 st tr).2 = [true, false] ∧ (send2 st tr).1.sending = false := by
  cases tr with
  | settles ok status data =>
    by_cases hok : ok = true
    · by_cases hr : optTruthy (data.bind RespBody.reply) = true
      · simp [send2, hcr, hnm, hidle, hne, fetchWithTimeout, hok, hr, sendingWrites]
      · simp [send2, hcr, hnm, hidle, hne, fetchWithTimeout, hok, hr, sendingWrites]
    · simp [send2, hcr, hnm, hidle, hne, fetchWithTimeout, hok, sendingWrites]
  | fails name =>
    simp [send2, hcr, hnm, hidle, hne, fetchWithTimeout, sendingWrites]
  | hangs =>
    simp [send2, hcr, hnm, hidle, hne, fetchWithTimeout, sendingWrites]

/-- Witness for C5 at input `"hello"` against a successful response. -/
theorem c5_witness :
    sendingWrites (send2 { initialState with input := "hello" }
        (Transport.settles true 200 (some { reply := some "Hi there!", error := none }))).2 =
      [true, false] ∧
    (send2 { initialState with input := "hello" }
        (Transport.settles true 200 (some { reply := some "Hi there!", error := none }))).1.sending =
      false :=
  c5_sending_cleanup { initialState with input := "hello" }
    (Transport.settles true 200 (some { reply := some "Hi there!", error := none }))
    (by decide) (by decide) (by decide) (by decide)

/-- C6: when the timer fires before the request settles, the abort is
surfaced as the timeout-specific assistant Message; a non-timeout network
failure is surfaced as the generic connection-error Message; the two texts
differ and both branches set connectivity offline. -/
theorem c6_timeout_vs_network (st : ChatState) (name : String)
    (hidle : st.sending = false) (hne : jsTrim st.input ≠ "")
    (hcr : isCreatorQuestion (jsTrim st.input) = false)
    (hnm : isNameQuestion (jsTrim st.input) = false)
    (hname : name ≠ "AbortError") :
    assistantAppends (send2 st Transport.hangs).2 =
      [{ role := "assistant", text := timeoutText2 }] ∧
    (send2 st Transport.hangs).1.online = false ∧
    assistantAppends (send2 st (Transport.fails name)).2 =
      [{ role := "assistant", text := connErrorText }] ∧
    (send2 st (Transport.fails name)).1.online = false ∧
    timeoutText2 ≠ connErrorText := by
  refine ⟨?_, ?_, ?_, ?_, by decide⟩ <;>
    simp [send2, hcr, hnm, hidle, hne, hname, fetchWithTimeout, assistantAppends]

/-- Witness for C6 at input `"hello"` with a `TypeError`-named network
failure as the non-timeout branch. -/
theorem c6_witness :
    assistantAppends (send2 { initialState with input := "hello" } Transport.hangs).2 =
      [{ role := "assistant", text := timeoutText2 }] ∧
    (send2 { initialState with input := "hello" } Transport.hangs).1.online = false ∧
    assistantAppends (send2 { initialState with input := "hello" } (Transport.fails "TypeError")).2 =
      [{ role := "assistant", text := connErrorText }] ∧
    (send2 { initialState with input := "hello" } (Transport.fails "TypeError")).1.online = false ∧
    timeoutText2 ≠ connErrorText :=
  c6_timeout_vs_network { initialState with input := "hello" } "TypeError"
    (by decide) (by decide) (by decide) (by decide) (by decide)

/-- C7: an HTTP-success response with no usable reply payload — the reply
field absent or empty, or the body not parsing as JSON at all — appends the
fixed `No reply.` assistant Message and sets connectivity online, not
offline. -/
theorem c7_empty_reply_online (st : ChatState) (status : Nat) (data : Option RespBody)
    (hidle : st.sending = false) (hne : jsTrim st.input ≠ "")
    (hcr : isCreatorQuestion (jsTrim st.input) = false)
    (hnm : isNameQuestion (jsTrim st.input) = false)
    (hreply : optTruthy (data.bind RespBody.reply) = false) :
    assistantAppends (send2 st (Transport.settles true status data)).2 =
      [{ role := "assistant", text := "No reply." }] ∧
    (send2 st (Transport.settles true status data)).1.online = true := by
  simp [send2, hcr, hnm, hidle, hne, hreply, fetchWithTimeout, assistantAppends]

/-- Witness for C7 at input `"hello"` with a 200 response whose body fails
to parse as JSON. -/
theorem c7_witness :
    assistantAppends (send2 { initialState with input := "hello" }
        (Transport.settles true 200 none)).2 =
      [{ role := "assistant", text := "No reply." }] ∧
    (send2 { initialState with input := "hello" } (Transport.settles true 200 none)).1.online =
      true :=
  c7_empty_reply_online { initialState with input := "hello" } 200 none
    (by decide) (by decide) (by decide) (by decide) (by decide)

/-- Every text occurring in the history window occurs in the underlying
message list (the window only reorders nothing and rewrites roles). -/
theorem historyForServer_text_mem {messages : List Message} {m : Message}
    (hm : m ∈ historyForServer messages) : ∃ x ∈ messages, x.text = m.text := by
  unfold historyForServer at hm
  simp only [List.mem_map] at hm
  obtain ⟨x, hx, rfl⟩ := hm
  exact ⟨x, List.drop_subset _ _ hx, rfl⟩

/-- Counterexample to C2 as stated: from the seeded conversation of length
N = 1, the timeout branch — an error branch appending a single assistant
error Message — leaves the conversation at length 3 = N + 2, not N + 1 as
the claim requires (the user turn was already appended before the fetch). -/
theorem c2_counterexample :
    (send2 { initialState with input := "hello" } Transport.hangs).1.messages.length =
      initialState.messages.length + 2 ∧
    (send2 { initialState with input := "hello" } Transport.hangs).1.messages.length ≠
      initialState.messages.length + 1 := by decide

/-- C2 as amended: from conversation length N, every outcome branch of a
non-canned send — success with reply, success without usable reply,
non-success status, network failure, and timeout alike — leaves the
conversation at exactly N + 2: the user turn plus exactly one assistant
turn; no branch appends zero or more than one assistant Message. -/
theorem c2_round_trip (st : ChatState) (tr : Transport)
    (hidle : st.sending = false) (hne : jsTrim st.input ≠ "")
    (hcr : isCreatorQuestion (jsTrim st.input) = false)
    (hnm : isNameQuestion (jsTrim st.input) = false) :
    (∃ m : Message, m.role = "assistant" ∧
      (send2 st tr).1.messages =
        st.messages ++ [{ role := "user", text := jsTrim st.input }, m]) ∧
    (send2 st tr).1.messages.length = st.messages.length + 2 ∧
    (assistantAppends (send2 st tr).2).length = 1 := by
  cases tr with
  | settles ok status data =>
    by_cases hok : ok = true
    · by_cases hr : optTruthy (data.bind RespBody.reply) = true
      · refine ⟨⟨⟨"assistant", (data.bind RespBody.reply).getD ""⟩, rfl, ?_⟩, ?_, ?_⟩ <;>
          simp [send2, hidle, hne, hcr, hnm, fetchWithTimeout, hok, hr, assistantAppends]
      · refine ⟨⟨⟨"assistant", "No reply."⟩, rfl, ?_⟩, ?_, ?_⟩ <;>
          simp [send2, hidle, hne, hcr, hnm, fetchWithTimeout, hok, hr, assistantAppends]
    · refine ⟨⟨⟨"assistant", errPrefix2 ++ serverErrorText data status⟩, rfl, ?_⟩, ?_, ?_⟩ <;>
        simp [send2, hidle, hne, hcr, hnm, fetchWithTimeout, hok, assistantAppends]
  | fails name =>
    refine ⟨⟨⟨"assistant", if name == "AbortError" then timeoutText2 else connErrorText⟩,
        rfl, ?_⟩, ?_, ?_⟩ <;>
      simp [send2, hidle, hne, hcr, hnm, fetchWithTimeout, assistantAppends]
  | hangs =>
    refine ⟨⟨⟨"assistant", timeoutText2⟩, rfl, ?_⟩, ?_, ?_⟩ <;>
      simp [send2, hidle, hne, hcr, hnm, fetchWithTimeout, assistantAppends]

/-- Witness for the amended C2 at input `"hello"` against a timeout. -/
theorem c2_witness :
    (∃ m : Message, m.role = "assistant" ∧
      (send2 { initialState with input := "hello" } Transport.hangs).1.messages =
        ({ initialState with input := "hello" } : ChatState).messages ++
          [{ role := "user", text := jsTrim "hello" }, m]) ∧
    (send2 { initialState with input := "hello" } Transport.hangs).1.messages.length =
      ({ initialState with input := "hello" } : ChatState).messages.length + 2 ∧
    (assistantAppends (send2 { initialState with input := "hello" } Transport.hangs).2).length =
      1 :=
  c2_round_trip { initialState with input := "hello" } Transport.hangs
    (by decide) (by decide) (by decide) (by decide)

/-- Counterexample to C4 as stated: sending `"hello"` from the seeded
state issues exactly one fetch whose history is the greeting alone — the
just-appended user turn `⟨user, hello⟩` is not in the history field of the
request, because the `useMemo` window was derived from the message list of
the render that created the closure, before the user append committed. -/
theorem c4_counterexample :
    fetchCalls (send2 { initialState with input := "hello" }
        (Transport.settles true 200 (some { reply := some "Hi there!", error := none }))).2 =
      [{ message := "hello", history := [{ role := "assistant", text := greetingText }] }] ∧
    Message.mk "user" "hello" ∉ [Message.mk "assistant" greetingText] := by decide

/-- C4 as amended: a non-canned send issues exactly one fetch, whose body
carries the trimmed input and the history window derived from the message
list as it stood before the user turn was appended; consequently, whenever
no prior message carries the input text, the just-appended user turn is
absent from the outgoing history. -/
theorem c4_history_preappend (st : ChatState) (tr : Transport)
    (hidle : st.sending = false) (hne : jsTrim st.input ≠ "")
    (hcr : isCreatorQuestion (jsTrim st.input) = false)
    (hnm : isNameQuestion (jsTrim st.input) = false) :
    fetchCalls (send2 st tr).2 =
      [{ message := jsTrim st.input, history := historyForServer st.messages }] ∧
    ∀ b ∈ fetchCalls (send2 st tr).2,
      (∀ m ∈ st.messages, m.text ≠ jsTrim st.input) →
        { role := "user", text := jsTrim st.input } ∉ b.history := by
  have hcalls : fetchCalls (send2 st tr).2 =
      [{ message := jsTrim st.input, history := historyForServer st.messages }] := by
    cases tr with
    | settles ok status data =>
      by_cases hok : ok = true
      · by_cases hr : optTruthy (data.bind RespBody.reply) = true
        · simp [send2, hidle, hne, hcr, hnm, fetchWithTimeout, hok, hr, fetchCalls]
        · simp [send2, hidle, hne, hcr, hnm, fetchWithTimeout, hok, hr, fetchCalls]
      · simp [send2, hidle, hne, hcr, hnm, fetchWithTimeout, hok, fetchCalls]
    | fails name =>
      simp [send2, hidle, hne, hcr, hnm, fetchWithTimeout, fetchCalls]
    | hangs =>
      simp [send2, hidle, hne, hcr, hnm, fetchWithTimeout, fetchCalls]
  refine ⟨hcalls, ?_⟩
  intro b hb hfresh hmem
  rw [hcalls, List.mem_singleton] at hb
  subst hb
  obtain ⟨x, hx, hxt⟩ := historyForServer_text_mem hmem
  exact hfresh x hx hxt

/-- Witness for the amended C4 at input `"hello"` against a success. -/
theorem c4_witness :
    fetchCalls (send2 { initialState with input := "hello" }
        (Transport.settles true 200 (some { reply := some "Hi there!", error := none }))).2 =
      [{ message := jsTrim "hello",
         history := historyForServer ({ initialState with input := "hello" } : ChatState).messages }] ∧
    ∀ b ∈ fetchCalls (send2 { initialState with input := "hello" }
        (Transport.settles true 200 (some { reply := some "Hi there!", error := none }))).2,
      (∀ m ∈ ({ initialState with input := "hello" } : ChatState).messages,
          m.text ≠ jsTrim "hello") →
        { role := "user", text := jsTrim "hello" } ∉ b.history :=
  c4_history_preappend { initialState with input := "hello" }
    (Transport.settles true 200 (some { reply := some "Hi there!", error := none }))
    (by decide) (by decide) (by decide) (by decide)

/-- Counterexample to C9 as stated: the input
`who made you and who are you` is matched by both the Creator classifier
and the Identity classifier, so the two classifiers are not disjoint on
inputs. -/
theorem c9_counterexample :
    isCreatorQuestion "who made you and who are you" = true ∧
    isNameQuestion "who made you and who are you" = true := by decide

/-- C9 as amended: the fixed substring lists of the two intents share no
common string, yet a single input can match both classifiers; `send`
evaluates the Creator check before the Identity check, so any input the
Creator classifier accepts — including inputs the Identity classifier also
accepts — receives the fixed creator reply. -/
theorem c9_creator_precedence (st : ChatState) (tr : Transport)
    (hidle : st.sending = false) (hne : jsTrim st.input ≠ "")
    (hcr : isCreatorQuestion (jsTrim st.input) = true) :
    assistantAppends (send2 st tr).2 = [{ role := "assistant", text := creatorText2 }] := by
  simp [send2, hidle, hne, hcr, assistantAppends]

/-- Witness for the amended C9 at an input matched by both classifiers. -/
theorem c9_witness :
    assistantAppends (send2 { initialState with input := "who made you and who are you" }
        Transport.hangs).2 =
      [{ role := "assistant", text := creatorText2 }] :=
  c9_creator_precedence { initialState with input := "who made you and who are you" }
    Transport.hangs (by decide) (by decide) (by decide)

end Esita
